import Mathlib

/-!
Shallow embedding of the RAG pipeline in
src/advanced_rag_pipeline_with_relevance_check.ipynb.

Python floats are modelled as exact rationals (`Rat`): every decimal literal
is taken at its exact value and IEEE rounding is abstracted away.  The IEEE
special values (inf, nan) and the corresponding parseable tokens, underscore
digit separators, and non-ASCII digits are outside the model; none of the
behaviour under scrutiny depends on them.
-/

/-- Characters removed by Python str.strip on the ASCII range: space, tab,
newline, carriage return, vertical tab, form feed. -/
def isPyWs (c : Char) : Bool :=
  c == ' ' || c == '\t' || c == '\n' || c == '\r' || c.toNat == 11 || c.toNat == 12

/-- Python str.strip: drop leading and trailing whitespace characters. -/
def pyStrip (cs : List Char) : List Char :=
  ((cs.dropWhile isPyWs).reverse.dropWhile isPyWs).reverse

/-- Numeric value of an ASCII digit character. -/
def digitVal (c : Char) : Nat := c.toNat - 48

/-- Consume a run of leading ASCII digits, returning their values and the
remaining characters. -/
def takeDigits : List Char → List Nat × List Char
  | [] => ([], [])
  | c :: cs =>
    if c.isDigit then
      let r := takeDigits cs
      (digitVal c :: r.1, r.2)
    else ([], c :: cs)

/-- Value of a digit sequence read in base 10. -/
def digitsVal (ds : List Nat) : Nat := ds.foldl (fun a d => 10 * a + d) 0

/-- Optional leading sign; the Bool is true when the value is non-negative. -/
def readSign : List Char → Bool × List Char
  | '+' :: cs => (true, cs)
  | '-' :: cs => (false, cs)
  | cs => (true, cs)

/-- Optional exponent part followed by end of input, scaling the mantissa m
as Python float() does. -/
def parseExp (m : Rat) : List Char → Option Rat
  | [] => some m
  | c :: cs =>
    if c == 'e' || c == 'E' then
      let s := readSign cs
      let d := takeDigits s.2
      if d.1.isEmpty || !d.2.isEmpty then none
      else some (if s.1 then m * 10 ^ digitsVal d.1 else m / 10 ^ digitsVal d.1)
    else none

/-- Decimal mantissa of a Python float literal: integer digits with an
optional fractional part, at least one digit overall. -/
def parseMantissa (cs : List Char) : Option Rat :=
  let ip := takeDigits cs
  match ip.2 with
  | '.' :: r2 =>
    let fp := takeDigits r2
    if ip.1.isEmpty && fp.1.isEmpty then none
    else parseExp ((digitsVal ip.1 : Rat) + (digitsVal fp.1 : Rat) / 10 ^ fp.1.length) fp.2
  | r1 => if ip.1.isEmpty then none else parseExp (digitsVal ip.1 : Rat) r1

/-- Signed decimal literal, the whole input consumed. -/
def parseSigned (cs : List Char) : Option Rat :=
  let s := readSign cs
  (parseMantissa s.2).map (fun v => if s.1 then v else -v)

/-- Python float(s) on the rational model: surrounding whitespace is ignored
(float() itself tolerates it, so the strip in extract_relevance_score is
folded in here; stripping twice equals stripping once), then an optional
sign, decimal mantissa and optional exponent must consume the whole text.
A failure (none) corresponds to Python raising ValueError. -/
def pyFloatOfString (s : String) : Option Rat :=
  parseSigned (pyStrip s.data)

/-- extract_relevance_score from the notebook: float(llm_output.strip())
with a ValueError caught and mapped to the sentinel 0.0. -/
def extract_relevance_score (llm_output : String) : Rat :=
  (pyFloatOfString llm_output).getD 0

/-- format_docs from the notebook: join the page contents with blank lines
(documents are modelled by their page_content strings). -/
def format_docs (docs : List String) : String :=
  String.intercalate "\n\n" docs

/-- FinalOutputModel: the pydantic model with fields relevance_score (float)
and answer (str).  Neither field carries any constraint beyond its type; in
particular nothing rejects an empty answer string. -/
structure FinalOutputModel where
  relevance_score : Rat
  answer : String
deriving DecidableEq

/-- The dict built by the second RunnableParallel of rag_chain: the raw
judgment-model text under key relevance_score and the raw generated answer
under key answer. -/
structure ChainDict where
  relevance_score : String
  answer : String
deriving DecidableEq

/-- format_json_output from the notebook: builds the dict
with relevance_score := extract_relevance_score(raw) and answer := raw
answer, dumps it to JSON and reparses it through
PydanticOutputParser(FinalOutputModel).  The round trip always validates:
relevance_score is already a float, answer is already a str, and
FinalOutputModel imposes no further constraints, so the Python None /
parse-failure outcome is unreachable and the function is total here. -/
def format_json_output (x : ChainDict) : FinalOutputModel :=
  { relevance_score := extract_relevance_score x.relevance_score,
    answer := x.answer }

/-- Result of conditional_answer: the Python function returns either the
plain decline string or a FinalOutputModel (its declared None alternative is
unreachable, see format_json_output). -/
inductive CondAnswer where
  | declined (message : String)
  | answered (output : FinalOutputModel)
deriving DecidableEq

/-- conditional_answer from the notebook: extract the relevance score from
the raw judgment text; below 4 return the fixed decline string, otherwise
return the structured output. -/
def conditional_answer (x : ChainDict) : CondAnswer :=
  if extract_relevance_score x.relevance_score < 4 then
    CondAnswer.declined "I don't know due to no relevant content found."
  else
    CondAnswer.answered (format_json_output x)

/-- relevance_prompt_template.format(question, retrieved_context) from the
notebook, with the two placeholders substituted. -/
def relevance_prompt (question retrieved_context : String) : String :=
  "\n    Given the following question and retrieved context, determine if the context is relevant to the question.\n    Provide a score from 1 to 5, where 1 is not at all relevant and 5 is highly relevant.\n    Return ONLY the numeric score, without any additional text or explanation.\n\n    Question: " ++ question ++ "\n    Retrieved Context: " ++ retrieved_context ++ "\n\n    Relevance Score:"

/-- The hub prompt jclemens24/rag-prompt with question and context filled in
(text as printed when the notebook pulls it). -/
def rag_prompt (question context : String) : String :=
  "You are an assistant for question-answering tasks. Use the following pieces of retrieved context to answer the question. If you don't know the answer, just say that you don't know.\nQuestion: " ++ question ++ " \nContext: " ++ context ++ " \nAnswer:"

/-- The dict produced by rag_chain: the second RunnableParallel keeps only
the keys relevance_score and answer, and the final assign step replaces
answer with conditional_answer's result. -/
structure RagResult where
  relevance_score : String
  answer : CondAnswer
deriving DecidableEq

/-- rag_chain from the notebook over abstract collaborators: the (fused)
retriever returns the ranked passage texts for the question; the judgment
and generation LLMs each take the full formatted prompt and return raw
text. -/
def rag_chain (retriever : String → List String) (llmJudge llmGen : String → String)
    (question : String) : RagResult :=
  { relevance_score :=
      llmJudge (relevance_prompt question (format_docs (retriever question))),
    answer := conditional_answer
      { relevance_score :=
          llmJudge (relevance_prompt question (format_docs (retriever question))),
        answer := llmGen (rag_prompt question (format_docs (retriever question))) } }

/-- Python exceptions reachable inside process_user_input: the unguarded
float(result["relevance_score"]) can raise ValueError. -/
inductive PyError where
  | valueError
deriving DecidableEq

/-- process_user_input from the notebook: invoke the chain; if the answer is
a FinalOutputModel take its two fields, otherwise display the decline string
together with an unguarded float(result["relevance_score"]) (a ValueError
when the raw judgment text is not numeric).  Returns the pair
(relevance_score, final_answer). -/
def process_user_input (retriever : String → List String)
    (llmJudge llmGen : String → String) (question : String) :
    Except PyError (Rat × String) :=
  match (rag_chain retriever llmJudge llmGen question).answer with
  | CondAnswer.answered m => Except.ok (m.relevance_score, m.answer)
  | CondAnswer.declined msg =>
    match pyFloatOfString (rag_chain retriever llmJudge llmGen question).relevance_score with
    | some f => Except.ok (f, msg)
    | none => Except.error PyError.valueError

/-- Decidable equality of Except results, so that concrete runs of
process_user_input can be evaluated. -/
instance {ε α : Type} [DecidableEq ε] [DecidableEq α] : DecidableEq (Except ε α) :=
  fun a b =>
    match a, b with
    | Except.ok a, Except.ok b =>
      if h : a = b then Decidable.isTrue (by rw [h])
      else Decidable.isFalse (fun he => h (Except.ok.inj he))
    | Except.error a, Except.error b =>
      if h : a = b then Decidable.isTrue (by rw [h])
      else Decidable.isFalse (fun he => h (Except.error.inj he))
    | Except.ok _, Except.error _ => Decidable.isFalse (fun he => Except.noConfusion he)
    | Except.error _, Except.ok _ => Decidable.isFalse (fun he => Except.noConfusion he)

/-- GateDecision from spec section 4.3. -/
structure GateDecision where
  proceed : Bool
deriving DecidableEq

namespace RelevanceGate

/-- The spec's named form of the relevance gate (section 4.3):
proceed = score >= threshold.  In the source the gate is the hardwired
comparison relevance_score < 4 inside conditional_answer; the agreement
between the two is proved below. -/
def decide (score threshold : Rat) : GateDecision :=
  { proceed := Decidable.decide (threshold ≤ score) }

end RelevanceGate

/-!
ContextFuser.  The fusion step of the source is the langchain
EnsembleRetriever configured in the notebook (weights [0.5, 0.5], c=0,
k=10); its weighted-rank-fusion algorithm is library code outside src, so
the definitions below are modelled from the spec (section 4.2).
-/

/-- Modelled from the spec: the contribution of one source list to a
passage's fusion score, weight omitted: 1 / (rank_in_source + 1) when the
passage occurs in the list (rank = first index of its exact text), else 0.
The langchain EnsembleRetriever itself is not part of src. -/
def rankContrib (docs : List String) (t : String) : Rat :=
  match List.indexOf? t docs with
  | some i => 1 / ((i : Rat) + 1)
  | none => 0

/-- Modelled from the spec: a passage's fusion score is the weighted sum of
its per-source rank contributions over every source list in which it
appears. -/
def fusionScore (sem lex : List String) (ws wl : Rat) (t : String) : Rat :=
  ws * rankContrib sem t + wl * rankContrib lex t

/-- First-seen-order deduplication, generic worker: keep an element when it
is not in the already-seen accumulator. -/
def dedupFirstAux (seen : List String) : List String → List String
  | [] => []
  | t :: ts =>
    if t ∈ seen then dedupFirstAux seen ts
    else t :: dedupFirstAux (t :: seen) ts

/-- Modelled from the spec: deduplication by exact passage text, keeping the
first occurrence (semantic list first, then lexical). -/
def dedupFirst (l : List String) : List String := dedupFirstAux [] l

/-- Modelled from the spec: the data the fusion ordering needs per unique
passage: fusion score, whether it occurs in both sources, the combined raw
rank, and whether its first-seen source is the semantic list. -/
structure FusedEntry where
  text : String
  score : Rat
  inBoth : Bool
  combinedRank : Nat
  semOrigin : Bool
deriving DecidableEq

/-- Modelled from the spec: build the FusedEntry of a passage text. -/
def mkEntry (sem lex : List String) (ws wl : Rat) (t : String) : FusedEntry :=
  { text := t,
    score := fusionScore sem lex ws wl t,
    inBoth := Decidable.decide (t ∈ sem) && Decidable.decide (t ∈ lex),
    combinedRank := (List.indexOf? t sem).getD 0 + (List.indexOf? t lex).getD 0,
    semOrigin := Decidable.decide (t ∈ sem) }

/-- Modelled from the spec: the fusion ordering — descending fusion score,
ties broken by appears-in-both before appears-in-one, then lower combined
raw rank, then semantic-first origin.  entryPrec a b is true when a may
come no later than b. -/
def entryPrec (a b : FusedEntry) : Bool :=
  if a.score = b.score then
    if a.inBoth = b.inBoth then
      if a.combinedRank = b.combinedRank then
        if a.semOrigin = b.semOrigin then true else a.semOrigin
      else Decidable.decide (a.combinedRank < b.combinedRank)
    else a.inBoth
  else Decidable.decide (b.score < a.score)

/-- Modelled from the spec: fuse(semantic, lexical, ws, wl, k) — score every
unique passage text, order by the fusion ordering, truncate to the first k
entries. -/
def fuse (sem lex : List String) (ws wl : Rat) (k : Nat) : List String :=
  let entries := (dedupFirst (sem ++ lex)).map (mkEntry sem lex ws wl)
  let sorted := List.insertionSort (fun a b => entryPrec a b = true) entries
  (sorted.take k).map FusedEntry.text

/-!
Helper lemmas shared by the claim theorems.
-/

/-- The decline branch of conditional_answer: below the threshold the fixed
decline string is returned. -/
theorem conditional_answer_declined {x : ChainDict}
    (h : extract_relevance_score x.relevance_score < 4) :
    conditional_answer x
      = CondAnswer.declined "I don't know due to no relevant content found." := by
  unfold conditional_answer
  rw [if_pos h]

/-- The answer branch of conditional_answer: at or above the threshold the
structured output is returned. -/
theorem conditional_answer_answered {x : ChainDict}
    (h : ¬ extract_relevance_score x.relevance_score < 4) :
    conditional_answer x = CondAnswer.answered (format_json_output x) := by
  unfold conditional_answer
  rw [if_neg h]

/-- Membership in the first-seen deduplication worker. -/
theorem mem_dedupFirstAux (t : String) :
    ∀ (l seen : List String), t ∈ dedupFirstAux seen l ↔ t ∈ l ∧ t ∉ seen := by
  intro l
  induction l with
  | nil => intro seen; simp [dedupFirstAux]
  | cons a l ih =>
    intro seen
    by_cases ha : a ∈ seen
    · rw [show dedupFirstAux seen (a :: l) = dedupFirstAux seen l from by
        simp [dedupFirstAux, ha]]
      rw [ih seen]
      constructor
      · rintro ⟨h1, h2⟩; exact ⟨List.mem_cons_of_mem a h1, h2⟩
      · rintro ⟨h1, h2⟩
        rcases List.mem_cons.mp h1 with rfl | h1
        · exact absurd ha h2
        · exact ⟨h1, h2⟩
    · rw [show dedupFirstAux seen (a :: l) = a :: dedupFirstAux (a :: seen) l from by
        simp [dedupFirstAux, ha]]
      constructor
      · intro hm
        rcases List.mem_cons.mp hm with rfl | hm
        · exact ⟨List.mem_cons_self t l, ha⟩
        · rcases (ih (a :: seen)).mp hm with ⟨h1, h2⟩
          refine ⟨List.mem_cons_of_mem a h1, fun hs => h2 (List.mem_cons_of_mem a hs)⟩
      · rintro ⟨h1, h2⟩
        rcases List.mem_cons.mp h1 with rfl | h1
        · exact List.mem_cons_self t _
        · by_cases hta : t = a
          · subst hta; exact List.mem_cons_self t _
          · exact List.mem_cons_of_mem a ((ih (a :: seen)).mpr
              ⟨h1, fun hs => (List.mem_cons.mp hs).elim hta h2⟩)

/-- The first-seen deduplication worker never produces duplicates. -/
theorem nodup_dedupFirstAux :
    ∀ (l seen : List String), (dedupFirstAux seen l).Nodup := by
  intro l
  induction l with
  | nil => intro seen; simp [dedupFirstAux]
  | cons a l ih =>
    intro seen
    by_cases ha : a ∈ seen
    · rw [show dedupFirstAux seen (a :: l) = dedupFirstAux seen l from by
        simp [dedupFirstAux, ha]]
      exact ih seen
    · rw [show dedupFirstAux seen (a :: l) = a :: dedupFirstAux (a :: seen) l from by
        simp [dedupFirstAux, ha]]
      refine List.nodup_cons.mpr ⟨fun hm => ?_, ih (a :: seen)⟩
      exact ((mem_dedupFirstAux a l (a :: seen)).mp hm).2 (List.mem_cons_self a seen)

/-- dedupFirst keeps exactly the members of its input, without duplicates. -/
theorem dedupFirst_nodup (l : List String) : (dedupFirst l).Nodup :=
  nodup_dedupFirstAux l []

/-- Membership in dedupFirst. -/
theorem mem_dedupFirst {t : String} {l : List String} : t ∈ dedupFirst l ↔ t ∈ l := by
  unfold dedupFirst
  rw [mem_dedupFirstAux]
  simp

/-- A single-source rank contribution is never negative. -/
theorem rankContrib_nonneg (docs : List String) (t : String) : 0 ≤ rankContrib docs t := by
  unfold rankContrib
  cases h : List.indexOf? t docs with
  | none => exact le_refl 0
  | some i =>
    have : (0 : Rat) < (i : Rat) + 1 := by positivity
    positivity

/-!
Claim theorems.
-/

/-- C1: whenever the relevance score extracted from the judgment-model
output is below the threshold 4, rag_chain returns the decline value — a
normal constructor of the result type, produced by conditional_answer's
decline branch, not an error — and the fixed decline message is exactly the
reason "no relevant content found" wrapped in the display sentence. -/
theorem run_declines_below_threshold (retriever : String → List String)
    (llmJudge llmGen : String → String) (question : String)
    (h : extract_relevance_score
      (llmJudge (relevance_prompt question (format_docs (retriever question)))) < 4) :
    (rag_chain retriever llmJudge llmGen question).answer
      = CondAnswer.declined "I don't know due to no relevant content found."
    ∧ "I don't know due to no relevant content found."
      = "I don't know due to " ++ "no relevant content found" ++ "." :=
  ⟨conditional_answer_declined h, rfl⟩

/-- Witness for C1 at a concrete low-relevance run. -/
theorem run_declines_below_threshold_witness :
    (rag_chain (fun _ => ["some passage"]) (fun _ => "1") (fun _ => "a draft answer")
        "How is Google developing its LLM?").answer
      = CondAnswer.declined "I don't know due to no relevant content found." :=
  (run_declines_below_threshold (fun _ => ["some passage"]) (fun _ => "1")
    (fun _ => "a draft answer") "How is Google developing its LLM?"
    (by with_unfolding_all decide)).1

/-- C2 counterexample: with judgment "4" (gate passed) and an empty
generation output, the code returns an Answered FinalOutputModel carrying
the empty answer — not an InvalidOutputError: FinalOutputModel places no
non-emptiness constraint on answer and the pydantic round trip accepts the
empty string. -/
theorem empty_answer_validates :
    conditional_answer { relevance_score := "4", answer := "" }
      = CondAnswer.answered { relevance_score := 4, answer := "" } := by
  with_unfolding_all decide

/-- C2 amended: when the gate has passed and the raw answer text is empty
or whitespace-only, validation still succeeds and the result is an Answered
FinalOutputModel carrying that answer verbatim. -/
theorem empty_answer_still_answers (j a : String)
    (hscore : 4 ≤ extract_relevance_score j) (hblank : pyStrip a.data = []) :
    conditional_answer { relevance_score := j, answer := a }
      = CondAnswer.answered { relevance_score := extract_relevance_score j, answer := a } :=
  conditional_answer_answered (not_lt.mpr hscore)

/-- Witness for the amended C2 at judgment "4" and a whitespace-only answer. -/
theorem empty_answer_still_answers_witness :
    conditional_answer { relevance_score := "4", answer := " " }
      = CondAnswer.answered
          { relevance_score := extract_relevance_score "4", answer := " " } :=
  empty_answer_still_answers "4" " " (by with_unfolding_all decide)
    (by with_unfolding_all decide)

/-- C3: extract_relevance_score is total by construction (it returns a
value for every string instead of raising), strips surrounding whitespace
and returns the parsed value on numeric input, and returns the sentinel 0
on every input float() rejects — non-numeric, empty or multi-token. -/
theorem extract_total_and_values :
    extract_relevance_score "4" = 4
    ∧ extract_relevance_score "  3.5 \n" = 7 / 2
    ∧ extract_relevance_score "five" = 0
    ∧ extract_relevance_score "" = 0
    ∧ extract_relevance_score "3 4" = 0
    ∧ (∀ s : String, pyFloatOfString s = none → extract_relevance_score s = 0)
    ∧ (∀ s : String, ∀ v : Rat, pyFloatOfString s = some v →
        extract_relevance_score s = v) := by
  refine ⟨by with_unfolding_all decide, by with_unfolding_all decide,
    by with_unfolding_all decide, by with_unfolding_all decide,
    by with_unfolding_all decide, ?_, ?_⟩
  · intro s h
    simp [extract_relevance_score, h]
  · intro s v h
    simp [extract_relevance_score, h]

/-- Witness for C3's sentinel clause at the non-numeric input "five". -/
theorem extract_total_and_values_witness :
    pyFloatOfString "five" = none ∧ extract_relevance_score "five" = 0 :=
  ⟨by with_unfolding_all decide,
    extract_total_and_values.2.2.2.2.2.1 "five" (by with_unfolding_all decide)⟩

/-- C4: when the judgment output parses to a score at or above the
threshold and the generation output is non-empty, rag_chain returns the
Answered value whose score is re-derived by extract_relevance_score from
the raw judgment text and whose answer is the generation output verbatim;
judgment "5" gives score 5. -/
theorem run_answers_above_threshold (retriever : String → List String)
    (llmJudge llmGen : String → String) (question : String)
    (hscore : 4 ≤ extract_relevance_score
      (llmJudge (relevance_prompt question (format_docs (retriever question)))))
    (hne : llmGen (rag_prompt question (format_docs (retriever question))) ≠ "") :
    (rag_chain retriever llmJudge llmGen question).answer
      = CondAnswer.answered
          { relevance_score := extract_relevance_score
              (llmJudge (relevance_prompt question (format_docs (retriever question)))),
            answer := llmGen (rag_prompt question (format_docs (retriever question))) }
    ∧ extract_relevance_score "5" = 5 :=
  ⟨conditional_answer_answered (not_lt.mpr hscore), by with_unfolding_all decide⟩

/-- Witness for C4 at the notebook's first scenario shape. -/
theorem run_answers_above_threshold_witness :
    (rag_chain (fun _ => ["relevant passage"]) (fun _ => "5") (fun _ => "An answer.")
        "What are Google's environmental initiatives?").answer
      = CondAnswer.answered
          { relevance_score := extract_relevance_score "5", answer := "An answer." }
    ∧ extract_relevance_score "5" = 5 :=
  run_answers_above_threshold (fun _ => ["relevant passage"]) (fun _ => "5")
    (fun _ => "An answer.") "What are Google's environmental initiatives?"
    (by with_unfolding_all decide) (by with_unfolding_all decide)

/-- C5: the gate proceeds exactly when score >= threshold, the boundary is
inclusive (4 vs 4 proceeds, 3.999 vs 4 does not), and for the hardwired
threshold 4 the gate decision agrees with the branch taken by
conditional_answer in the source. -/
theorem gate_threshold_inclusive :
    (∀ score threshold : Rat,
        (RelevanceGate.decide score threshold).proceed = true ↔ threshold ≤ score)
    ∧ (RelevanceGate.decide 4 4).proceed = true
    ∧ (RelevanceGate.decide (3999 / 1000) 4).proceed = false
    ∧ (∀ x : ChainDict,
        (RelevanceGate.decide (extract_relevance_score x.relevance_score) 4).proceed = true
          ↔ conditional_answer x = CondAnswer.answered (format_json_output x)) := by
  refine ⟨fun s t => by simp [RelevanceGate.decide], by with_unfolding_all decide,
    by with_unfolding_all decide, fun x => ?_⟩
  by_cases h : extract_relevance_score x.relevance_score < 4
  · constructor
    · intro hp
      exact absurd (of_decide_eq_true hp) (not_le.mpr h)
    · intro he
      rw [conditional_answer_declined h] at he
      exact CondAnswer.noConfusion he
  · constructor
    · intro _
      exact conditional_answer_answered h
    · intro _
      exact decide_eq_true (not_lt.mp h)

/-- C6: below the threshold the whole chain result is independent of the
generation model — the draft answer is discarded unread. -/
theorem declined_ignores_generation (retriever : String → List String)
    (llmJudge llmGen1 llmGen2 : String → String) (question : String)
    (h : extract_relevance_score
      (llmJudge (relevance_prompt question (format_docs (retriever question)))) < 4) :
    rag_chain retriever llmJudge llmGen1 question
      = rag_chain retriever llmJudge llmGen2 question := by
  have e1 : (rag_chain retriever llmJudge llmGen1 question).answer
      = CondAnswer.declined "I don't know due to no relevant content found." :=
    conditional_answer_declined h
  have e2 : (rag_chain retriever llmJudge llmGen2 question).answer
      = CondAnswer.declined "I don't know due to no relevant content found." :=
    conditional_answer_declined h
  calc rag_chain retriever llmJudge llmGen1 question
      = { relevance_score :=
            llmJudge (relevance_prompt question (format_docs (retriever question))),
          answer := (rag_chain retriever llmJudge llmGen1 question).answer } := rfl
    _ = { relevance_score :=
            llmJudge (relevance_prompt question (format_docs (retriever question))),
          answer := (rag_chain retriever llmJudge llmGen2 question).answer } := by
        rw [e1, e2]
    _ = rag_chain retriever llmJudge llmGen2 question := rfl

/-- Witness for C6: two different generation outputs, identical result. -/
theorem declined_ignores_generation_witness :
    rag_chain (fun _ => ["passage"]) (fun _ => "1") (fun _ => "draft one") "query"
      = rag_chain (fun _ => ["passage"]) (fun _ => "1") (fun _ => "draft two") "query" :=
  declined_ignores_generation (fun _ => ["passage"]) (fun _ => "1") (fun _ => "draft one")
    (fun _ => "draft two") "query" (by with_unfolding_all decide)

/-- C8: the gate is monotonic in the score for a fixed threshold: a higher
score never switches proceed from true to false. -/
theorem gate_monotone (s1 s2 t : Rat) (h : s2 ≤ s1) :
    (RelevanceGate.decide s2 t).proceed ≤ (RelevanceGate.decide s1 t).proceed := by
  by_cases h2 : t ≤ s2
  · have h1 : t ≤ s1 := le_trans h2 h
    simp [RelevanceGate.decide, h1, h2]
  · simp [RelevanceGate.decide, h2]

/-- Witness for C8 at scores 5 >= 4 and threshold 4. -/
theorem gate_monotone_witness :
    (RelevanceGate.decide 4 4).proceed ≤ (RelevanceGate.decide 5 4).proceed :=
  gate_monotone 5 4 4 (by with_unfolding_all decide)

/-- C9: whenever conditional_answer returns an Answered FinalOutputModel,
its relevance_score is at least the threshold 4 and equals the
sentinel-extracted value of the raw judgment text; a below-threshold
Answered result is never produced. -/
theorem answered_score_invariant (x : ChainDict) (m : FinalOutputModel)
    (h : conditional_answer x = CondAnswer.answered m) :
    4 ≤ m.relevance_score
    ∧ m.relevance_score = extract_relevance_score x.relevance_score := by
  by_cases hlt : extract_relevance_score x.relevance_score < 4
  · rw [conditional_answer_declined hlt] at h
    exact CondAnswer.noConfusion h
  · rw [conditional_answer_answered hlt] at h
    injection h with hm
    rw [← hm]
    exact ⟨not_lt.mp hlt, rfl⟩

/-- Witness for C9 at judgment "5". -/
theorem answered_score_invariant_witness :
    4 ≤ ({ relevance_score := 5, answer := "ok" } : FinalOutputModel).relevance_score
    ∧ ({ relevance_score := 5, answer := "ok" } : FinalOutputModel).relevance_score
        = extract_relevance_score "5" :=
  answered_score_invariant { relevance_score := "5", answer := "ok" }
    { relevance_score := 5, answer := "ok" } (by with_unfolding_all decide)

/-- C10: in the declined branch process_user_input re-parses the raw
judgment text with an unguarded float(): when that text parses to f the
pair (f, decline string) is returned, and for non-numeric raw text in that
branch the ValueError branch is reachable (concretely at judgment "five"),
even though extract_relevance_score itself is total. -/
theorem declined_display_unguarded_parse (retriever : String → List String)
    (llmJudge llmGen : String → String) (question : String) (f : Rat)
    (hlow : extract_relevance_score
      (llmJudge (relevance_prompt question (format_docs (retriever question)))) < 4)
    (hparse : pyFloatOfString
      (llmJudge (relevance_prompt question (format_docs (retriever question)))) = some f) :
    process_user_input retriever llmJudge llmGen question
      = Except.ok (f, "I don't know due to no relevant content found.")
    ∧ process_user_input (fun _ => ["passage"]) (fun _ => "five") (fun _ => "draft") "q"
        = Except.error PyError.valueError := by
  constructor
  · have ha : (rag_chain retriever llmJudge llmGen question).answer
        = CondAnswer.declined "I don't know due to no relevant content found." :=
      conditional_answer_declined hlow
    have hj : pyFloatOfString
        (rag_chain retriever llmJudge llmGen question).relevance_score = some f := hparse
    unfold process_user_input
    rw [ha, hj]
  · with_unfolding_all decide

/-- Witness for C10 at the numeric low judgment "3". -/
theorem declined_display_unguarded_parse_witness :
    process_user_input (fun _ => ["passage"]) (fun _ => "3") (fun _ => "draft") "query"
      = Except.ok ((3 : Rat), "I don't know due to no relevant content found.")
    ∧ process_user_input (fun _ => ["passage"]) (fun _ => "five") (fun _ => "draft") "q"
        = Except.error PyError.valueError :=
  declined_display_unguarded_parse (fun _ => ["passage"]) (fun _ => "3") (fun _ => "draft")
    "query" 3 (by with_unfolding_all decide) (by with_unfolding_all decide)

/-- C7 counterexample: with semantic = [A, T], lexical = [B, C, T], weights
1/2 and 1/2, the fused list is [A, B, T, C]: the passage T, present in both
lists, lands at index 2, strictly below its best single-source position
(index 1 in the semantic list), so "ranked at or above its best
single-source position" fails; and with k = 2 the truncation cuts T out
entirely, so "occurs exactly once in the fused output" also fails. -/
theorem fuse_rank_counterexample :
    fuse ["A", "T"] ["B", "C", "T"] (1 / 2) (1 / 2) 10 = ["A", "B", "T", "C"]
    ∧ List.indexOf "T" (fuse ["A", "T"] ["B", "C", "T"] (1 / 2) (1 / 2) 10) = 2
    ∧ List.indexOf "T" ["A", "T"] = 1
    ∧ List.indexOf "T" ["B", "C", "T"] = 2
    ∧ ¬ List.indexOf "T" (fuse ["A", "T"] ["B", "C", "T"] (1 / 2) (1 / 2) 10)
        ≤ min (List.indexOf "T" ["A", "T"]) (List.indexOf "T" ["B", "C", "T"])
    ∧ fuse ["A", "T"] ["B", "C", "T"] (1 / 2) (1 / 2) 2 = ["A", "B"]
    ∧ List.count "T" (fuse ["A", "T"] ["B", "C", "T"] (1 / 2) (1 / 2) 2) = 0 := by
  with_unfolding_all decide

/-- C7 amended: each passage's fusion score is the weighted sum of
1 / (rank_in_source + 1) over the source lists containing it, and with
non-negative weights that fused score is at least either single-source
contribution; a passage appearing in both lists occurs at most once in the
fused output — exactly once when the top-k truncation keeps every unique
passage — and the output is truncated to the first k entries.  (The original
rank guarantee fails: see the counterexample.) -/
theorem fuse_amended (sem lex : List String) (ws wl : Rat) (k : Nat) (t : String)
    (hws : 0 ≤ ws) (hwl : 0 ≤ wl) :
    List.count t (fuse sem lex ws wl k) ≤ 1
    ∧ (fuse sem lex ws wl k).length ≤ k
    ∧ (t ∈ sem → t ∈ lex → (dedupFirst (sem ++ lex)).length ≤ k →
        List.count t (fuse sem lex ws wl k) = 1)
    ∧ fusionScore sem lex ws wl t = ws * rankContrib sem t + wl * rankContrib lex t
    ∧ ws * rankContrib sem t ≤ fusionScore sem lex ws wl t
    ∧ wl * rankContrib lex t ≤ fusionScore sem lex ws wl t := by
  have hsemc : 0 ≤ ws * rankContrib sem t :=
    mul_nonneg hws (rankContrib_nonneg sem t)
  have hlexc : 0 ≤ wl * rankContrib lex t :=
    mul_nonneg hwl (rankContrib_nonneg lex t)
  have htexts : ((dedupFirst (sem ++ lex)).map (mkEntry sem lex ws wl)).map FusedEntry.text
      = dedupFirst (sem ++ lex) := by
    rw [List.map_map]
    exact List.map_id _
  have hperm : List.Perm
      ((List.insertionSort (fun a b => entryPrec a b = true)
        ((dedupFirst (sem ++ lex)).map (mkEntry sem lex ws wl))).map FusedEntry.text)
      (dedupFirst (sem ++ lex)) := by
    have h0 := (List.perm_insertionSort (fun a b => entryPrec a b = true)
      ((dedupFirst (sem ++ lex)).map (mkEntry sem lex ws wl))).map FusedEntry.text
    rw [htexts] at h0
    exact h0
  have hcount_le : List.count t (fuse sem lex ws wl k)
      ≤ List.count t (dedupFirst (sem ++ lex)) := by
    unfold fuse
    calc List.count t ((List.take k (List.insertionSort (fun a b => entryPrec a b = true)
            ((dedupFirst (sem ++ lex)).map (mkEntry sem lex ws wl)))).map FusedEntry.text)
        ≤ List.count t ((List.insertionSort (fun a b => entryPrec a b = true)
            ((dedupFirst (sem ++ lex)).map (mkEntry sem lex ws wl))).map FusedEntry.text) :=
          ((List.take_sublist _ _).map FusedEntry.text).count_le t
      _ = List.count t (dedupFirst (sem ++ lex)) := hperm.count_eq t
  refine ⟨?_, ?_, ?_, rfl, ?_, ?_⟩
  · exact le_trans hcount_le (List.nodup_iff_count_le_one.mp (dedupFirst_nodup _) t)
  · unfold fuse
    rw [List.length_map, List.length_take]
    exact min_le_left _ _
  · intro hsem _ hk
    have hmem : t ∈ dedupFirst (sem ++ lex) :=
      mem_dedupFirst.mpr (List.mem_append.mpr (Or.inl hsem))
    have hlen : (List.insertionSort (fun a b => entryPrec a b = true)
        ((dedupFirst (sem ++ lex)).map (mkEntry sem lex ws wl))).length ≤ k := by
      rw [(List.perm_insertionSort _ _).length_eq, List.length_map]
      exact hk
    have hfeq : fuse sem lex ws wl k
        = (List.insertionSort (fun a b => entryPrec a b = true)
            ((dedupFirst (sem ++ lex)).map (mkEntry sem lex ws wl))).map FusedEntry.text := by
      show (List.take k (List.insertionSort (fun a b => entryPrec a b = true)
          ((dedupFirst (sem ++ lex)).map (mkEntry sem lex ws wl)))).map FusedEntry.text = _
      rw [List.take_of_length_le hlen]
    rw [hfeq, hperm.count_eq t]
    exact List.count_eq_one_of_mem (dedupFirst_nodup _) hmem
  · unfold fusionScore
    exact le_add_of_nonneg_right hlexc
  · unfold fusionScore
    exact le_add_of_nonneg_left hsemc

/-- Witness for the amended C7 at a small concrete fusion. -/
theorem fuse_amended_witness :
    List.count "a" (fuse ["a"] ["a", "b"] (1 / 2) (1 / 2) 10) ≤ 1
    ∧ (fuse ["a"] ["a", "b"] (1 / 2) (1 / 2) 10).length ≤ 10
    ∧ ("a" ∈ ["a"] → "a" ∈ ["a", "b"] →
        (dedupFirst (["a"] ++ ["a", "b"])).length ≤ 10 →
        List.count "a" (fuse ["a"] ["a", "b"] (1 / 2) (1 / 2) 10) = 1)
    ∧ fusionScore ["a"] ["a", "b"] (1 / 2) (1 / 2) "a"
        = (1 / 2) * rankContrib ["a"] "a" + (1 / 2) * rankContrib ["a", "b"] "a"
    ∧ (1 / 2) * rankContrib ["a"] "a" ≤ fusionScore ["a"] ["a", "b"] (1 / 2) (1 / 2) "a"
    ∧ (1 / 2) * rankContrib ["a", "b"] "a"
        ≤ fusionScore ["a"] ["a", "b"] (1 / 2) (1 / 2) "a" :=
  fuse_amended ["a"] ["a", "b"] (1 / 2) (1 / 2) 10 "a"
    (by with_unfolding_all decide) (by with_unfolding_all decide)
